import Mathlib

/-!
Shallow embedding of the StudySprint 4.0 study-session core
(`backend/modules/sessions/models.py` and `backend/modules/sessions/services.py`)
and proofs of the specification claims about it.

Conventions of the embedding:
* Python `datetime` values are rationals counting seconds (`datetime` subtraction
  yields fractional seconds via `total_seconds()`).
* Python `int` fields are `Int`, Python `float` computations are `ℚ`.
* Python `int(x)` (truncation toward zero) is `pyInt`.
* Python truthiness tests (`if value:`) on optional ints / strings / lists are made
  explicit (`none`, `0`, `""` and `[]` are falsy).
* The SQLAlchemy store is a record of lists; `query(...).filter(Model.id == key).first()`
  is `List.find?`, a committed ORM mutation is `replaceSession` / `replacePomodoro`.
* Raised `ValueError`s are the constructors of `SessionError`, one per raise site.
-/

/- Batteries marks the `Rat` arithmetic irreducible, which blocks kernel evaluation
of concrete instances; the allowed `semireducible` attribute restores it. -/
attribute [local semireducible] Rat.mul Rat.add Rat.sub Rat.inv

/-- Python `int(q)` on a rational: truncation toward zero. -/
def pyInt (q : ℚ) : Int := Int.tdiv q.num q.den

/-- Python `min(a, b)` on two floats (returns the first argument on ties). -/
def pyMin (a b : ℚ) : ℚ := if a ≤ b then a else b

/-- Python `max(a, b)` on two floats (returns the second argument on ties). -/
def pyMax (a b : ℚ) : ℚ := if b ≤ a then a else b

/-- The clamp `max(0.0, min(100.0, x))` used by every score computation in
`models.py`. -/
def pyClamp (x : ℚ) : ℚ := pyMax 0 (pyMin 100 x)

/-- Truthiness of an optional Python int: `None` and `0` are falsy. -/
def truthyInt : Option Int → Bool
  | none => false
  | some v => v != 0

/-- Truthiness of an optional Python string: `None` and `""` are falsy. -/
def truthyStr : Option String → Bool
  | none => false
  | some t => t != ""

/-- Truthiness of an optional Python list: `None` and `[]` are falsy. -/
def truthyList : Option (List String) → Bool
  | none => false
  | some l => !l.isEmpty

/-- One row of `activity_events` (model `ActivityEvent`); only the columns the
embedded code reads are kept (`event_data`, ids and advisory columns are opaque
to every embedded computation). -/
structure ActivityEvent where
  session_id : Nat
  event_type : String
  event_timestamp : ℚ
deriving Repr, DecidableEq

/-- One row of `session_breaks` (model `SessionBreak`), restricted to the columns
read by `calculate_advanced_focus_score`. -/
structure SessionBreak where
  session_id : Nat
  break_type : String := "planned"
  duration_minutes : Option Int := none
deriving Repr, DecidableEq

/-- One row of `pdfs` (model `PDF`), restricted to the columns touched by
`PDF.update_reading_progress`. -/
structure PDF where
  pdf_key : Nat
  current_page : Int := 0
  last_read_page : Int := 0
  total_pages : Int := 0
  reading_progress : ℚ := 0
  is_completed : Bool := false
  completion_date : Option ℚ := none
deriving Repr, DecidableEq

/-- One row of `reading_speeds` (model `ReadingSpeed`), restricted to the columns
`_record_reading_speed` writes from session data. -/
structure ReadingSpeed where
  session_id : Nat
  pages_per_minute : ℚ
  words_per_minute : ℚ
deriving Repr, DecidableEq

/-- One row of `study_sessions` (model `StudySession`).  `paused_at` embeds the
single key `session_data['paused_at']`, the only part of the free-form JSON
column `session_data` the code reads or writes. -/
structure StudySession where
  sid : Nat
  pdf_id : Option Nat := none
  topic_id : Option Nat := none
  exercise_id : Option Nat := none
  session_type : String := "study"
  session_name : Option String := none
  start_time : ℚ := 0
  end_time : Option ℚ := none
  planned_duration_minutes : Int := 60
  total_minutes : Int := 0
  active_minutes : Int := 0
  idle_minutes : Int := 0
  break_minutes : Int := 0
  pages_visited : Int := 0
  pages_completed : Int := 0
  starting_page : Int := 1
  ending_page : Int := 1
  pomodoro_cycles : Int := 0
  interruptions : Int := 0
  focus_score : ℚ := 0
  productivity_score : ℚ := 0
  difficulty_rating : Option Int := none
  energy_level : Option Int := none
  mood_rating : Option Int := none
  environment_type : Option String := none
  notes : Option String := none
  goals_set : List String := []
  goals_achieved : List String := []
  xp_earned : Int := 0
  paused_at : Option ℚ := none
deriving Repr, DecidableEq

/-- One row of `pomodoro_sessions` (model `PomodoroSession`). -/
structure PomodoroSession where
  pid : Nat
  study_session_id : Nat
  cycle_number : Int := 1
  cycle_type : String := "work"
  planned_duration_minutes : Int := 25
  actual_duration_minutes : Option Int := none
  completed : Bool := false
  interruptions : Int := 0
  interruption_types : List String := []
  effectiveness_rating : Option Int := none
  focus_rating : Option Int := none
  task_completed : Bool := false
  notes : Option String := none
  xp_earned : Int := 0
  started_at : Option ℚ := none
  completed_at : Option ℚ := none
deriving Repr, DecidableEq

/-- Property `StudySession.is_active`: started and not yet ended. -/
def StudySession.is_active (s : StudySession) : Bool := s.end_time.isNone

/-- Property `StudySession.duration_seconds` at a given current time `now`
(`datetime.utcnow()` in the no-`end_time` branch). -/
def StudySession.duration_seconds (s : StudySession) (now : ℚ) : ℚ :=
  match s.end_time with
  | some e => e - s.start_time
  | none => now - s.start_time

/-- Property `StudySession.efficiency_score`: `(active / total) * 100`, `0.0`
when `total_minutes` is zero. -/
def StudySession.efficiency_score (s : StudySession) : ℚ :=
  if s.total_minutes = 0 then 0
  else ((s.active_minutes : ℚ) / (s.total_minutes : ℚ)) * 100

/-- `StudySession.calculate_focus_score` (the simple scorer used by
`end_session` and `_update_session_metrics`). -/
def StudySession.calculate_focus_score (s : StudySession) : ℚ :=
  if s.total_minutes = 0 then 0
  else
    let r_active : ℚ :=
      if s.total_minutes > 0 then (s.active_minutes : ℚ) / (s.total_minutes : ℚ) else 0
    let interruption_penalty := pyMin ((s.interruptions : ℚ) * (1/10)) (1/2)
    let pomodoro_bonus := pyMin ((s.pomodoro_cycles : ℚ) * (1/20)) (3/10)
    pyClamp (r_active * 100 - interruption_penalty * 100 + pomodoro_bonus * 100)

/-- `StudySession.end_session` (model method): set `end_time`, freeze
`total_minutes` and `focus_score`, and compute
`xp_earned = int(total_minutes * (1 + focus_score / 100))`.  A second call is a
no-op because of the `if not self.end_time` guard. -/
def StudySession.end_session (s : StudySession) (now : ℚ) : StudySession :=
  match s.end_time with
  | some _ => s
  | none =>
    let s1 : StudySession := { s with end_time := some now }
    let s2 : StudySession := { s1 with total_minutes := pyInt (s1.duration_seconds now / 60) }
    let s3 : StudySession := { s2 with focus_score := s2.calculate_focus_score }
    let base_xp : ℚ := (s3.total_minutes : ℚ)
    let quality_multiplier : ℚ := 1 + s3.focus_score / 100
    { s3 with xp_earned := pyInt (base_xp * quality_multiplier) }

/-- The consecutive time gaps `events[i].event_timestamp - events[i-1].event_timestamp`
(in seconds) built by `calculate_advanced_focus_score`. -/
def timeGaps : List ℚ → List ℚ
  | t1 :: t2 :: rest => (t2 - t1) :: timeGaps (t2 :: rest)
  | _ => []

/-- `StudySession.calculate_advanced_focus_score`: active-time base plus
consistency and pomodoro bonuses minus break and interruption penalties,
clamped to `[0, 100]`. -/
def StudySession.calculate_advanced_focus_score (s : StudySession)
    (activity_events : List ActivityEvent) (break_records : List SessionBreak) : ℚ :=
  if s.total_minutes = 0 then 0
  else
    let r_active : ℚ :=
      if s.total_minutes > 0 then (s.active_minutes : ℚ) / (s.total_minutes : ℚ) else 0
    let base_score := r_active * 100
    let consistency_bonus : ℚ :=
      if activity_events.length > 0 then
        let gaps := timeGaps (activity_events.map (fun e => e.event_timestamp))
        if gaps ≠ [] then
          let avg_gap := gaps.sum / (gaps.length : ℚ)
          if 30 ≤ avg_gap ∧ avg_gap ≤ 300 then 10 else 0
        else 0
      else 0
    let break_penalty : ℚ :=
      if break_records ≠ [] then
        let total_break_time : ℚ :=
          (((break_records.filter (fun b => truthyInt b.duration_minutes)).map
            (fun b => ((b.duration_minutes.getD 0 : Int) : ℚ))).sum)
        if 0 < total_break_time then
          let avg_break_duration := total_break_time / (break_records.length : ℚ)
          if 15 < avg_break_duration then pyMin 20 ((avg_break_duration - 15) * 2)
          else if avg_break_duration < 2 then (2 - avg_break_duration) * 5
          else 0
        else 0
      else 0
    let interruption_penalty := pyMin ((s.interruptions : ℚ) * 5) 25
    let pomodoro_bonus := pyMin ((s.pomodoro_cycles : ℚ) * 3) 15
    pyClamp (base_score + consistency_bonus + pomodoro_bonus - break_penalty - interruption_penalty)

/-- `StudySession.calculate_productivity_score`: pages, efficiency, goal and
focus contributions, clamped to `[0, 100]`.  Note the source reads the *stored*
`focus_score` field. -/
def StudySession.calculate_productivity_score (s : StudySession) : ℚ :=
  if s.total_minutes = 0 then 0
  else
    let pages_score : ℚ :=
      if s.pages_completed > 0 then pyMin 50 ((s.pages_completed : ℚ) * 5) else 0
    let efficiency := s.efficiency_score
    let efficiency_part := efficiency * (3/10)
    let goals_achieved_count : ℚ :=
      if !s.goals_achieved.isEmpty then (s.goals_achieved.length : ℚ) else 0
    let goals_set_count : ℚ :=
      if !s.goals_set.isEmpty then (s.goals_set.length : ℚ) else 1
    let goal_score := (goals_achieved_count / goals_set_count) * 20
    let focus_contribution := s.focus_score * (1/5)
    pyClamp (pages_score + efficiency_part + goal_score + focus_contribution)

/-- `PDF.update_reading_progress`: advance the page pointers and the completion
percentage; mark completed when the last page is reached. -/
def PDF.update_reading_progress (p : PDF) (current_page : Int) (now : ℚ) : PDF :=
  let p1 : PDF := { p with
    current_page := current_page
    last_read_page := max p.last_read_page current_page }
  if p1.total_pages > 0 then
    let p2 : PDF := { p1 with
      reading_progress := ((current_page : ℚ) / (p1.total_pages : ℚ)) * 100 }
    if current_page ≥ p2.total_pages then
      { p2 with is_completed := true, completion_date := some now }
    else p2
  else p1

/-- `PomodoroSession.complete_cycle`: terminal-state guard, duration and rating
assignment, and `xp_earned = int(base_xp)` with
`base_xp = (10 if work else 5) * (rating / 3 when a rating is stored)`. -/
def PomodoroSession.complete_cycle (p : PomodoroSession) (now : ℚ)
    (effectiveness_rating focus_rating : Option Int) : PomodoroSession :=
  match p.completed_at with
  | some _ => p
  | none =>
    let p1 : PomodoroSession := { p with completed_at := some now, completed := true }
    let p2 : PomodoroSession :=
      match p1.started_at with
      | some st => { p1 with actual_duration_minutes := some (pyInt ((now - st) / 60)) }
      | none => p1
    let p3 : PomodoroSession :=
      if truthyInt effectiveness_rating then
        { p2 with effectiveness_rating := effectiveness_rating }
      else p2
    let p4 : PomodoroSession :=
      if truthyInt focus_rating then { p3 with focus_rating := focus_rating } else p3
    let base0 : ℚ := if p4.cycle_type = "work" then 10 else 5
    let base1 : ℚ :=
      match p4.effectiveness_rating with
      | some r => if r ≠ 0 then base0 * ((r : ℚ) / 3) else base0
      | none => base0
    { p4 with xp_earned := pyInt base1 }

/-- The distinct `ValueError` raise sites of the service layer, tagged with the
error taxonomy of the specification: `activeSessionExists` is the
`ConflictError`, `sessionNotFound` / `pomodoroNotFound` the `NotFoundError`s,
and `cannotUpdateCompleted` / `sessionAlreadyEnded` / `cannotPauseCompleted`
the `InvalidStateError`s. -/
inductive SessionError where
  | activeSessionExists
  | sessionNotFound
  | cannotUpdateCompleted
  | sessionAlreadyEnded
  | cannotPauseCompleted
  | pomodoroNotFound
deriving Repr, DecidableEq

/-- Request payload of `start_session` (`StudySessionCreate`; the sessions
schema module is not under `src/`, fields are the ones the service reads). -/
structure StudySessionCreate where
  pdf_id : Option Nat := none
  topic_id : Option Nat := none
  exercise_id : Option Nat := none
  session_type : String := "study"
  session_name : Option String := none
  planned_duration_minutes : Int := 60
  starting_page : Int := 1
  goals_set : List String := []
  environment_type : Option String := none
deriving Repr, DecidableEq

/-- Request payload of `update_session` (`StudySessionUpdate`).  Modelled from
the spec: the sessions schema module is not under `src/`; per the spec `update`
"applies field changes (current page, goals achieved, ratings)", and the
service applies every set field whose name is a `StudySession` column
(`current_page` is not one, it only refreshes the in-memory tracking). -/
structure StudySessionUpdate where
  current_page : Option Int := none
  pages_visited : Option Int := none
  pages_completed : Option Int := none
  goals_achieved : Option (List String) := none
  difficulty_rating : Option Int := none
  energy_level : Option Int := none
  mood_rating : Option Int := none
  notes : Option String := none
deriving Repr, DecidableEq

/-- Request payload of `end_session` (`StudySessionEnd`; fields are the ones
the service reads). -/
structure StudySessionEnd where
  ending_page : Option Int := none
  difficulty_rating : Option Int := none
  energy_level : Option Int := none
  mood_rating : Option Int := none
  goals_achieved : Option (List String) := none
  notes : Option String := none
deriving Repr, DecidableEq

/-- Request payload of `start_pomodoro` (`PomodoroSessionCreate`). -/
structure PomodoroSessionCreate where
  study_session_id : Nat
  cycle_number : Int := 1
  cycle_type : String := "work"
  planned_duration_minutes : Int := 25
deriving Repr, DecidableEq

/-- Request payload of `complete_pomodoro` (`PomodoroSessionComplete`; fields
are the ones the service reads). -/
structure PomodoroSessionComplete where
  effectiveness_rating : Option Int := none
  focus_rating : Option Int := none
  task_completed : Option Bool := none
  interruptions : Option Int := none
  interruption_types : Option (List String) := none
  notes : Option String := none
deriving Repr, DecidableEq

/-- The durable store behind the SQLAlchemy session (`db` in the services):
one list per table the embedded code touches. -/
structure DB where
  sessions : List StudySession := []
  pdfs : List PDF := []
  reading_speeds : List ReadingSpeed := []
  activity_events : List ActivityEvent := []
  breaks : List SessionBreak := []
  pomodoros : List PomodoroSession := []
deriving Repr, DecidableEq

/-- One entry of the in-memory `active_sessions` dict of `StudySessionService`
(the unused `idle_periods` list is kept for completeness). -/
structure Tracking where
  track_start_time : ℚ := 0
  last_activity : ℚ := 0
  activity_count : Int := 0
  idle_periods : List ℚ := []
  current_page : Int := 1
  paused : Bool := false
  pause_start : Option ℚ := none
deriving Repr, DecidableEq

/-- The full state a `StudySessionService` instance acts on: the durable store
plus its in-memory `active_sessions` map (keyed by session id). -/
structure ServiceState where
  db : DB := {}
  active_sessions : List (Nat × Tracking) := []
deriving Repr, DecidableEq

/-- Commit of an ORM mutation of the session row with id `sid`. -/
def replaceSession (l : List StudySession) (sid : Nat) (s' : StudySession) :
    List StudySession :=
  l.map (fun x => if x.sid == sid then s' else x)

/-- Commit of an ORM mutation of the pomodoro row with id `pid`. -/
def replacePomodoro (l : List PomodoroSession) (pid : Nat) (p' : PomodoroSession) :
    List PomodoroSession :=
  l.map (fun x => if x.pid == pid then p' else x)

/-- Lookup in the `active_sessions` dict. -/
def trackingFind (m : List (Nat × Tracking)) (sid : Nat) : Option Tracking :=
  (m.find? (fun kv => kv.1 == sid)).map Prod.snd

/-- Assignment `active_sessions[key] = tr`. -/
def trackingSet (m : List (Nat × Tracking)) (sid : Nat) (tr : Tracking) :
    List (Nat × Tracking) :=
  if (m.find? (fun kv => kv.1 == sid)).isSome then
    m.map (fun kv => if kv.1 == sid then (sid, tr) else kv)
  else m ++ [(sid, tr)]

/-- Deletion `del active_sessions[key]` (a no-op when the key is absent, as in
the guarded deletes of the service). -/
def trackingDel (m : List (Nat × Tracking)) (sid : Nat) : List (Nat × Tracking) :=
  m.filter (fun kv => kv.1 != sid)

/-- `StudySessionService._update_session_metrics`: attribute the time since the
last tracked activity to idle time (capped at 300 s) past the 120 s idle
threshold, otherwise recompute `active_minutes` from elapsed wall-clock time,
then refresh the stored `focus_score`.  Early return when the session id is not
in `active_sessions`. -/
def update_session_metrics (s : StudySession) (tr : Option Tracking) (now : ℚ) :
    StudySession :=
  match tr with
  | none => s
  | some t =>
    let time_since_activity := now - t.last_activity
    let s1 : StudySession :=
      if time_since_activity > 120 then
        let idle_seconds := pyMin time_since_activity 300
        { s with idle_minutes := s.idle_minutes + pyInt (idle_seconds / 60) }
      else
        { s with active_minutes :=
            pyInt ((now - s.start_time) / 60) - s.idle_minutes - s.break_minutes }
    { s1 with focus_score := s1.calculate_focus_score }

/-- The `if end_data.field:` assignment block at the top of
`StudySessionService.end_session` (Python truthiness on every field). -/
def applyEndData (s : StudySession) (e : StudySessionEnd) : StudySession :=
  { s with
    ending_page := if truthyInt e.ending_page then e.ending_page.getD s.ending_page
      else s.ending_page
    difficulty_rating := if truthyInt e.difficulty_rating then e.difficulty_rating
      else s.difficulty_rating
    energy_level := if truthyInt e.energy_level then e.energy_level else s.energy_level
    mood_rating := if truthyInt e.mood_rating then e.mood_rating else s.mood_rating
    goals_achieved := if truthyList e.goals_achieved then e.goals_achieved.getD []
      else s.goals_achieved
    notes := if truthyStr e.notes then e.notes else s.notes }

/-- The `setattr` loop of `StudySessionService.update_session`: every set field
that is a `StudySession` column is applied verbatim (`exclude_unset`, no
truthiness filtering); `current_page` is not a column, so it is skipped. -/
def applyUpdates (s : StudySession) (u : StudySessionUpdate) : StudySession :=
  { s with
    pages_visited := u.pages_visited.getD s.pages_visited
    pages_completed := u.pages_completed.getD s.pages_completed
    goals_achieved := u.goals_achieved.getD s.goals_achieved
    difficulty_rating := match u.difficulty_rating with
      | some v => some v
      | none => s.difficulty_rating
    energy_level := match u.energy_level with
      | some v => some v
      | none => s.energy_level
    mood_rating := match u.mood_rating with
      | some v => some v
      | none => s.mood_rating
    notes := match u.notes with
      | some v => some v
      | none => s.notes }

/-- `StudySessionService._record_reading_speed`: append a `ReadingSpeed` row
unless `pages_completed` is falsy or `active_minutes` is zero. -/
def record_reading_speed (s : StudySession) (speeds : List ReadingSpeed) :
    List ReadingSpeed :=
  if s.pages_completed = 0 ∨ s.active_minutes = 0 then speeds
  else
    let pages_per_minute : ℚ := (s.pages_completed : ℚ) / (s.active_minutes : ℚ)
    let words_per_minute : ℚ := ((s.pages_completed : ℚ) * 250) / (s.active_minutes : ℚ)
    speeds ++ [{ session_id := s.sid
                 pages_per_minute := pages_per_minute
                 words_per_minute := words_per_minute }]

/-- `StudySessionService._update_pdf_progress`: update the linked PDF row when
it exists. -/
def update_pdf_progress (pdfs : List PDF) (pdf_id : Nat) (current_page : Int)
    (now : ℚ) : List PDF :=
  match pdfs.find? (fun p => p.pdf_key == pdf_id) with
  | some _ => pdfs.map (fun q =>
      if q.pdf_key == pdf_id then q.update_reading_progress current_page now else q)
  | none => pdfs

/-- `StudySessionService.start_session`: refuse (`ConflictError`) when any
stored session has no `end_time`, otherwise persist a fresh `Active` session
and register it in `active_sessions`.  `fresh_id` stands for the UUID the store
assigns on insert. -/
def StudySessionService.start_session (st : ServiceState) (data : StudySessionCreate)
    (fresh_id : Nat) (now : ℚ) : Except SessionError StudySession × ServiceState :=
  match st.db.sessions.find? (fun s => s.end_time.isNone) with
  | some _ => (.error .activeSessionExists, st)
  | none =>
    let s : StudySession := {
      sid := fresh_id
      pdf_id := data.pdf_id
      topic_id := data.topic_id
      exercise_id := data.exercise_id
      session_type := data.session_type
      session_name := data.session_name
      planned_duration_minutes := data.planned_duration_minutes
      starting_page := data.starting_page
      goals_set := data.goals_set
      environment_type := data.environment_type
      start_time := now }
    let tr : Tracking := {
      track_start_time := s.start_time
      last_activity := now
      activity_count := 0
      idle_periods := []
      current_page := s.starting_page }
    (.ok s, { st with
      db := { st.db with sessions := st.db.sessions ++ [s] }
      active_sessions := trackingSet st.active_sessions fresh_id tr })

/-- `StudySessionService.update_session`: `NotFoundError` for an unknown id,
`InvalidStateError` for an ended session; otherwise apply the partial update,
refresh the in-memory tracking, recompute real-time metrics and commit. -/
def StudySessionService.update_session (st : ServiceState) (sid : Nat)
    (u : StudySessionUpdate) (now : ℚ) : Except SessionError StudySession × ServiceState :=
  match st.db.sessions.find? (fun x => x.sid == sid) with
  | none => (.error .sessionNotFound, st)
  | some s =>
    if s.end_time.isSome then (.error .cannotUpdateCompleted, st)
    else
      let s1 := applyUpdates s u
      match trackingFind st.active_sessions sid with
      | some tr =>
        let tr1 : Tracking := { tr with last_activity := now
                                        activity_count := tr.activity_count + 1 }
        let tr2 : Tracking :=
          if truthyInt u.current_page then
            { tr1 with current_page := u.current_page.getD tr1.current_page }
          else tr1
        let s2 := update_session_metrics s1 (some tr2) now
        (.ok s2, { st with
          db := { st.db with sessions := replaceSession st.db.sessions sid s2 }
          active_sessions := trackingSet st.active_sessions sid tr2 })
      | none =>
        let s2 := update_session_metrics s1 none now
        (.ok s2, { st with
          db := { st.db with sessions := replaceSession st.db.sessions sid s2 } })

/-- `StudySessionService.end_session`: `NotFoundError` for an unknown id,
`InvalidStateError` (`"Session already ended"`) when `end_time` is already set;
otherwise apply the end payload, finalize via the model's `end_session`, update
the linked PDF's reading progress, drop the in-memory tracking entry, record a
reading-speed row and commit. -/
def StudySessionService.end_session (st : ServiceState) (sid : Nat)
    (e : StudySessionEnd) (now : ℚ) : Except SessionError StudySession × ServiceState :=
  match st.db.sessions.find? (fun x => x.sid == sid) with
  | none => (.error .sessionNotFound, st)
  | some s =>
    if s.end_time.isSome then (.error .sessionAlreadyEnded, st)
    else
      let s1 := applyEndData s e
      let s2 := s1.end_session now
      let pdfs' :=
        match s2.pdf_id with
        | some pid =>
          if s2.ending_page ≠ 0 then update_pdf_progress st.db.pdfs pid s2.ending_page now
          else st.db.pdfs
        | none => st.db.pdfs
      (.ok s2, { st with
        db := { st.db with
          sessions := replaceSession st.db.sessions sid s2
          pdfs := pdfs'
          reading_speeds := record_reading_speed s2 st.db.reading_speeds }
        active_sessions := trackingDel st.active_sessions sid })

/-- `StudySessionService.pause_session`: `NotFoundError` / `InvalidStateError`
guards, then record `session_data['paused_at'] = now` and flag the in-memory
tracking as paused. -/
def StudySessionService.pause_session (st : ServiceState) (sid : Nat) (now : ℚ) :
    Except SessionError StudySession × ServiceState :=
  match st.db.sessions.find? (fun x => x.sid == sid) with
  | none => (.error .sessionNotFound, st)
  | some s =>
    if s.end_time.isSome then (.error .cannotPauseCompleted, st)
    else
      let s1 : StudySession := { s with paused_at := some now }
      let m' :=
        match trackingFind st.active_sessions sid with
        | some tr => trackingSet st.active_sessions sid
            { tr with paused := true, pause_start := some now }
        | none => st.active_sessions
      (.ok s1, { st with
        db := { st.db with sessions := replaceSession st.db.sessions sid s1 }
        active_sessions := m' })

/-- `StudySessionService.resume_session`: `NotFoundError` for an unknown id;
when `session_data['paused_at']` is present, add the elapsed pause to
`break_minutes` and delete the marker.  Note the source has no `end_time`
guard here. -/
def StudySessionService.resume_session (st : ServiceState) (sid : Nat) (now : ℚ) :
    Except SessionError StudySession × ServiceState :=
  match st.db.sessions.find? (fun x => x.sid == sid) with
  | none => (.error .sessionNotFound, st)
  | some s =>
    let s1 : StudySession :=
      match s.paused_at with
      | some pause_start =>
        { s with
          break_minutes := s.break_minutes + pyInt ((now - pause_start) / 60)
          paused_at := none }
      | none => s
    let m' :=
      match trackingFind st.active_sessions sid with
      | some tr =>
        if tr.paused then
          trackingSet st.active_sessions sid
            { tr with paused := false, pause_start := none, last_activity := now }
        else st.active_sessions
      | none => st.active_sessions
    (.ok s1, { st with
      db := { st.db with sessions := replaceSession st.db.sessions sid s1 }
      active_sessions := m' })

/-- Stable-by-construction ordering of a session's activity events by timestamp
(the `order_by(ActivityEvent.event_timestamp)` of `update_focus_score`). -/
def insertByTimestamp (e : ActivityEvent) : List ActivityEvent → List ActivityEvent
  | [] => [e]
  | x :: xs =>
    if x.event_timestamp ≤ e.event_timestamp then x :: insertByTimestamp e xs
    else e :: x :: xs

/-- Sort of a list of activity events by `event_timestamp`. -/
def sortByTimestamp : List ActivityEvent → List ActivityEvent
  | [] => []
  | x :: xs => insertByTimestamp x (sortByTimestamp xs)

/-- `StudySession.update_focus_score`: recompute the advanced focus score from
the session's timestamp-ordered activity events and its break records, and the
productivity score (the source computes the latter before storing the new focus
score, so it still reads the stale one), then commit both. -/
def update_focus_score (db : DB) (sid : Nat) : DB :=
  match db.sessions.find? (fun x => x.sid == sid) with
  | none => db
  | some s =>
    let activity_events :=
      sortByTimestamp (db.activity_events.filter (fun e => e.session_id == sid))
    let break_records := db.breaks.filter (fun b => b.session_id == sid)
    let new_focus_score := s.calculate_advanced_focus_score activity_events break_records
    let new_productivity_score := s.calculate_productivity_score
    let s' : StudySession := { s with focus_score := new_focus_score
                                      productivity_score := new_productivity_score }
    { db with sessions := replaceSession db.sessions sid s' }

/-- `StudySession.register_activity_event`: silently no-op (return `false`) when
the session is unknown or already ended; otherwise append the event, refresh the
scores via `update_focus_score` and commit, returning `true`. -/
def register_activity_event (db : DB) (sid : Nat) (event_type : String) (now : ℚ) :
    Bool × DB :=
  match db.sessions.find? (fun x => x.sid == sid) with
  | none => (false, db)
  | some s =>
    if s.end_time.isSome then (false, db)
    else
      let ev : ActivityEvent := {
        session_id := sid
        event_type := event_type
        event_timestamp := now }
      let db1 : DB := { db with activity_events := db.activity_events ++ [ev] }
      (true, update_focus_score db1 sid)

/-- `PomodoroService.start_pomodoro`: persist a new cycle (no state guard in the
source).  `fresh_id` stands for the UUID the store assigns on insert. -/
def PomodoroService.start_pomodoro (db : DB) (data : PomodoroSessionCreate)
    (fresh_id : Nat) (now : ℚ) : PomodoroSession × DB :=
  let p : PomodoroSession := {
    pid := fresh_id
    study_session_id := data.study_session_id
    cycle_number := data.cycle_number
    cycle_type := data.cycle_type
    planned_duration_minutes := data.planned_duration_minutes
    started_at := some now }
  (p, { db with pomodoros := db.pomodoros ++ [p] })

/-- `PomodoroService.complete_pomodoro`: `NotFoundError` for an unknown cycle
id; otherwise run the model's `complete_cycle`, apply the optional completion
payload, and *unconditionally* increment the parent session's `pomodoro_cycles`
and `xp_earned`, then commit.  Note the source never checks whether the cycle
was already completed. -/
def PomodoroService.complete_pomodoro (db : DB) (pid : Nat)
    (c : PomodoroSessionComplete) (now : ℚ) : Except SessionError PomodoroSession × DB :=
  match db.pomodoros.find? (fun p => p.pid == pid) with
  | none => (.error .pomodoroNotFound, db)
  | some p =>
    let p1 := p.complete_cycle now c.effectiveness_rating c.focus_rating
    let p2 : PomodoroSession :=
      match c.task_completed with
      | some b => { p1 with task_completed := b }
      | none => p1
    let p3 : PomodoroSession :=
      match c.interruptions with
      | some n => { p2 with interruptions := n }
      | none => p2
    let p4 : PomodoroSession :=
      if truthyList c.interruption_types then
        { p3 with interruption_types := c.interruption_types.getD [] }
      else p3
    let p5 : PomodoroSession :=
      if truthyStr c.notes then { p4 with notes := c.notes } else p4
    let sessions' :=
      match db.sessions.find? (fun s => s.sid == p.study_session_id) with
      | some s => replaceSession db.sessions p.study_session_id
          { s with pomodoro_cycles := s.pomodoro_cycles + 1
                   xp_earned := s.xp_earned + p5.xp_earned }
      | none => db.sessions
    (.ok p5, { db with
      pomodoros := replacePomodoro db.pomodoros pid p5
      sessions := sessions' })

/-! ## General lemmas about the embedded primitives -/

/-- The score clamp is bounded below by `0`. -/
theorem pyClamp_nonneg (x : ℚ) : 0 ≤ pyClamp x := by
  unfold pyClamp pyMax pyMin
  split <;> split <;> simp_all <;> linarith

/-- The score clamp is bounded above by `100`. -/
theorem pyClamp_le (x : ℚ) : pyClamp x ≤ 100 := by
  unfold pyClamp pyMax pyMin
  split <;> split <;> simp_all <;> linarith

/-- On nonnegative rationals Python truncation agrees with the floor. -/
theorem pyInt_eq_floor (q : ℚ) (h : 0 ≤ q) : pyInt q = ⌊q⌋ := by
  unfold pyInt
  rw [Rat.floor_def]
  exact Int.tdiv_eq_ediv (Rat.num_nonneg.mpr h) (Int.ofNat_nonneg _)

/-- Replacing the row that `find?` located makes `find?` return the new row,
provided the new row keeps the key. -/
theorem find?_replaceSession (l : List StudySession) (sid : Nat) (s s' : StudySession)
    (h : l.find? (fun x => x.sid == sid) = some s) (hs : s'.sid = sid) :
    (replaceSession l sid s').find? (fun x => x.sid == sid) = some s' := by
  induction l with
  | nil => simp at h
  | cons a t ih =>
    by_cases ha : a.sid = sid
    · simp [replaceSession, ha, hs]
    · have hb : (a.sid == sid) = false := by simp [ha]
      simp only [List.find?_cons, hb] at h
      have h1 : replaceSession (a :: t) sid s' = a :: replaceSession t sid s' := by
        simp [replaceSession, hb]
        exact fun hc => absurd hc ha
      rw [h1, List.find?_cons, hb]
      exact ih h

/-- `applyEndData` never touches the session id. -/
theorem applyEndData_sid (s : StudySession) (e : StudySessionEnd) :
    (applyEndData s e).sid = s.sid := rfl

/-- `applyEndData` never touches `end_time`. -/
theorem applyEndData_end_time (s : StudySession) (e : StudySessionEnd) :
    (applyEndData s e).end_time = s.end_time := rfl

/-- The model's `end_session` never touches the session id. -/
theorem end_session_model_sid (s : StudySession) (now : ℚ) :
    (s.end_session now).sid = s.sid := by
  cases h : s.end_time <;> simp [StudySession.end_session, h]

/-- Ending a not-yet-ended session stamps `end_time` with the current time. -/
theorem end_session_model_end_time (s : StudySession) (now : ℚ) (h : s.end_time = none) :
    (s.end_session now).end_time = some now := by
  simp [StudySession.end_session, h]

/-! ## Claims -/

/-- C3: for every session state and every list of activity events and break
records, the advanced focus score and the productivity score both lie in
`[0, 100]`. -/
theorem scores_always_in_range (s : StudySession)
    (activity_events : List ActivityEvent) (break_records : List SessionBreak) :
    0 ≤ s.calculate_advanced_focus_score activity_events break_records ∧
    s.calculate_advanced_focus_score activity_events break_records ≤ 100 ∧
    0 ≤ s.calculate_productivity_score ∧ s.calculate_productivity_score ≤ 100 := by
  refine ⟨?_, ?_, ?_, ?_⟩
  · unfold StudySession.calculate_advanced_focus_score
    split
    · norm_num
    · exact pyClamp_nonneg _
  · unfold StudySession.calculate_advanced_focus_score
    split
    · norm_num
    · exact pyClamp_le _
  · unfold StudySession.calculate_productivity_score
    split
    · norm_num
    · exact pyClamp_nonneg _
  · unfold StudySession.calculate_productivity_score
    split
    · norm_num
    · exact pyClamp_le _

/-- C1: starting a session while some stored session still has no `end_time`
(is `Active` or `Paused`) fails with the `ConflictError`-tagged error and
leaves the whole service state — in particular the set of stored sessions —
unchanged. -/
theorem start_session_conflict (st : ServiceState) (data : StudySessionCreate)
    (fresh_id : Nat) (now : ℚ)
    (h : ∃ s ∈ st.db.sessions, s.end_time = none) :
    StudySessionService.start_session st data fresh_id now
      = (.error .activeSessionExists, st) := by
  have hsome : (st.db.sessions.find? (fun s => s.end_time.isNone)).isSome := by
    rw [List.find?_isSome]
    obtain ⟨s, hmem, hnone⟩ := h
    exact ⟨s, hmem, by simp [hnone]⟩
  obtain ⟨w, hw⟩ := Option.isSome_iff_exists.mp hsome
  unfold StudySessionService.start_session
  rw [hw]

/-- C1 witness: a store holding one active session rejects a new start and is
left unchanged. -/
theorem start_session_conflict_witness :
    StudySessionService.start_session { db := { sessions := [{ sid := 1 }] } } {} 2 0
      = (.error .activeSessionExists, { db := { sessions := [{ sid := 1 }] } }) :=
  start_session_conflict _ _ _ _ ⟨{ sid := 1 }, by simp, rfl⟩

/-- C7 counterexample: a work cycle started at time 0 and completed at time
1500 s with `effectiveness_rating = 5` earns `int(10 * 5 / 3) = 16` XP, not the
`round(10 * 5 / 3) = 17` the claim states. -/
theorem complete_cycle_xp_rating5_cex :
    (PomodoroSession.complete_cycle
        { pid := 7, study_session_id := 1, started_at := some 0 } 1500 (some 5) none).xp_earned
      = 16 ∧ (16 : Int) ≠ 17 := by
  constructor
  · decide
  · decide

/-- C7 (amended): a completed-with-rating cycle earns
`int(baseXp(cycleType) * rating / 3)` XP — the Python `int` truncation of the
scaled base, with base 10 for work cycles and 5 otherwise. -/
theorem complete_cycle_xp_formula (p : PomodoroSession) (now : ℚ) (r : Int)
    (fr : Option Int) (hc : p.completed_at = none) (hr : r ≠ 0) :
    (p.complete_cycle now (some r) fr).xp_earned
      = pyInt ((if p.cycle_type = "work" then (10 : ℚ) else 5) * ((r : ℚ) / 3)) := by
  unfold PomodoroSession.complete_cycle
  rw [hc]
  have htr : truthyInt (some r) = true := by simp [truthyInt, hr]
  simp only [htr, if_true]
  cases hst : p.started_at <;> cases htf : truthyInt fr <;> simp [hst, htf, hr]

/-- C7 witness: the amended formula at the counterexample input evaluates to
16 XP. -/
theorem complete_cycle_xp_formula_witness :
    (PomodoroSession.complete_cycle
        { pid := 7, study_session_id := 1, started_at := some 0 } 1500 (some 5) none).xp_earned
      = pyInt ((if ({ pid := 7, study_session_id := 1, started_at := some 0 }
          : PomodoroSession).cycle_type = "work" then (10 : ℚ) else 5) * ((5 : ℚ) / 3)) :=
  complete_cycle_xp_formula _ 1500 5 none rfl (by decide)

/-- C10: completing a cycle that has no stored effectiveness rating and is
given none earns exactly the unscaled base XP: 10 for a work cycle, 5
otherwise. -/
theorem complete_cycle_xp_no_rating (p : PomodoroSession) (now : ℚ)
    (hc : p.completed_at = none) (he : p.effectiveness_rating = none) :
    (p.complete_cycle now none none).xp_earned
      = if p.cycle_type = "work" then 10 else 5 := by
  unfold PomodoroSession.complete_cycle
  rw [hc]
  simp only [truthyInt, Bool.false_eq_true, if_false]
  cases hst : p.started_at <;>
    by_cases hct : p.cycle_type = "work" <;>
      simp [hst, he, hct] <;> decide

/-- C10 witness: an unrated work cycle earns exactly 10 XP. -/
theorem complete_cycle_xp_no_rating_witness :
    (PomodoroSession.complete_cycle
        { pid := 7, study_session_id := 1, started_at := some 0 } 1500 none none).xp_earned
      = if ({ pid := 7, study_session_id := 1, started_at := some 0 }
          : PomodoroSession).cycle_type = "work" then 10 else 5 :=
  complete_cycle_xp_no_rating _ 1500 rfl rfl

/-- The C6 scenario: a single work cycle (id 7, started at t=0) under parent
session 1, run through `complete_pomodoro` twice (at t=1500 and t=2000). -/
def doubleCompleteRun : Except SessionError PomodoroSession × DB :=
  let db0 : DB := {
    sessions := [{ sid := 1 }]
    pomodoros := [{ pid := 7, study_session_id := 1, started_at := some 0 }] }
  PomodoroService.complete_pomodoro
    (PomodoroService.complete_pomodoro db0 7 {} 1500).2 7 {} 2000

/-- C6: contrary to the claim, the second `complete_pomodoro` on an
already-completed cycle does not fail — it returns the (still completed) cycle
— and it increments the parent session's `pomodoro_cycles` and `xp_earned` a
second time (to 2 cycles and 20 XP after one 10-XP completion). -/
theorem complete_pomodoro_double_increment :
    doubleCompleteRun.1.toOption.map (fun p => p.completed) = some true ∧
    (doubleCompleteRun.2.sessions.find? (fun s => s.sid == 1)).map
      (fun s => (s.pomodoro_cycles, s.xp_earned)) = some (2, 20) := by
  constructor
  · decide
  · decide

/-- The C9 scenario: a session that was paused at t=50 (leaving
`session_data['paused_at']` set) and then ended at t=100, hit by
`resume_session` at t=170. -/
def resumeEndedRun : Except SessionError StudySession × ServiceState :=
  StudySessionService.resume_session
    { db := { sessions :=
        [{ sid := 1, start_time := 0, end_time := some 100, paused_at := some 50 }] } }
    1 170

/-- C9: contrary to the claim, `resume_session` has no ended-session guard: on
an ended session with a leftover pause marker it succeeds and mutates the
stored record, adding `int((170 - 50) / 60) = 2` to `break_minutes` and
deleting the marker from `session_data`. -/
theorem resume_mutates_ended_session :
    resumeEndedRun.1.toOption.map (fun s => (s.end_time, s.break_minutes, s.paused_at))
      = some (some 100, 2, none) ∧
    resumeEndedRun.2.db.sessions.map (fun s => s.break_minutes) = [2] := by
  constructor
  · decide
  · decide

/-- C8: registering an activity event for an unknown session id or for a
session whose `end_time` is set returns `false` and leaves the store — events,
sessions and scores — exactly unchanged. -/
theorem register_activity_event_noop (db : DB) (sid : Nat) (event_type : String)
    (now : ℚ)
    (h : (db.sessions.find? (fun x => x.sid == sid)).all
          (fun s => s.end_time.isSome) = true) :
    register_activity_event db sid event_type now = (false, db) := by
  unfold register_activity_event
  cases hf : db.sessions.find? (fun x => x.sid == sid) with
  | none => rfl
  | some s =>
    rw [hf] at h
    simp only [Option.all_some] at h
    simp [h]

/-- C8 witness: an ended session ignores a `"click"` event and the store is
unchanged. -/
theorem register_activity_event_noop_witness :
    register_activity_event { sessions := [{ sid := 1, end_time := some 100 }] } 1 "click" 200
      = (false, { sessions := [{ sid := 1, end_time := some 100 }] }) :=
  register_activity_event_noop _ _ _ _ (by decide)

/-- A successful `end_session` returns the finalized session and commits it in
place of the old row (the other tables and the tracking map change as the
service dictates). -/
theorem end_session_ok_spec (st : ServiceState) (sid : Nat) (e : StudySessionEnd)
    (t : ℚ) (s : StudySession)
    (hf : st.db.sessions.find? (fun x => x.sid == sid) = some s)
    (hend : s.end_time = none) :
    (StudySessionService.end_session st sid e t).1
      = .ok ((applyEndData s e).end_session t) ∧
    (StudySessionService.end_session st sid e t).2.db.sessions
      = replaceSession st.db.sessions sid ((applyEndData s e).end_session t) := by
  unfold StudySessionService.end_session
  rw [hf]
  have hbs : s.end_time.isSome = false := by simp [hend]
  simp only [hbs, Bool.false_eq_true, if_false]
  exact ⟨trivial, trivial⟩

/-- `end_session` on a session whose `end_time` is already set fails with the
`InvalidStateError`-tagged error and leaves the whole state unchanged. -/
theorem end_session_already_ended (st : ServiceState) (sid : Nat)
    (e : StudySessionEnd) (t : ℚ) (s : StudySession)
    (hf : st.db.sessions.find? (fun x => x.sid == sid) = some s)
    (hs : s.end_time.isSome = true) :
    StudySessionService.end_session st sid e t = (.error .sessionAlreadyEnded, st) := by
  unfold StudySessionService.end_session
  rw [hf]
  simp only [hs, if_true]

/-- C2: after a successful `end_session`, a second `end_session` on the same id
fails with the `InvalidStateError`-tagged error and returns the state exactly
as the first call left it — no field of the persisted record changes. -/
theorem end_session_idempotent_invalid_state (st : ServiceState) (sid : Nat)
    (e1 e2 : StudySessionEnd) (t1 t2 : ℚ) (s : StudySession)
    (hf : st.db.sessions.find? (fun x => x.sid == sid) = some s)
    (hend : s.end_time = none) :
    StudySessionService.end_session
        (StudySessionService.end_session st sid e1 t1).2 sid e2 t2
      = (.error .sessionAlreadyEnded, (StudySessionService.end_session st sid e1 t1).2) := by
  obtain ⟨-, h2⟩ := end_session_ok_spec st sid e1 t1 s hf hend
  have hsid : s.sid = sid := by
    have := List.find?_some hf
    simpa using this
  set st1 := (StudySessionService.end_session st sid e1 t1).2 with hst1
  have hfind2 : st1.db.sessions.find? (fun x => x.sid == sid)
      = some ((applyEndData s e1).end_session t1) := by
    rw [h2]
    exact find?_replaceSession _ _ _ _ hf
      (by rw [end_session_model_sid, applyEndData_sid, hsid])
  have hsome : ((applyEndData s e1).end_session t1).end_time.isSome = true := by
    rw [end_session_model_end_time]
    · rfl
    · rw [applyEndData_end_time]; exact hend
  exact end_session_already_ended st1 sid e2 t2 _ hfind2 hsome

/-- C2 witness: a fresh session ended at t=600 rejects a second end at t=700
and the state from the first end is returned untouched. -/
theorem end_session_idempotent_invalid_state_witness :
    StudySessionService.end_session
        (StudySessionService.end_session
          { db := { sessions := [{ sid := 1, start_time := 0 }] } } 1 {} 600).2 1 {} 700
      = (.error .sessionAlreadyEnded,
         (StudySessionService.end_session
           { db := { sessions := [{ sid := 1, start_time := 0 }] } } 1 {} 600).2) :=
  end_session_idempotent_invalid_state _ 1 {} {} 600 700 { sid := 1, start_time := 0 }
    rfl rfl

/-- A successful `pause_session` commits the session with the pause marker set
(and nothing else changed on the row). -/
theorem pause_session_ok_spec (st : ServiceState) (sid : Nat) (t : ℚ)
    (s : StudySession)
    (hf : st.db.sessions.find? (fun x => x.sid == sid) = some s)
    (hend : s.end_time = none) :
    (StudySessionService.pause_session st sid t).2.db.sessions
      = replaceSession st.db.sessions sid { s with paused_at := some t } := by
  unfold StudySessionService.pause_session
  rw [hf]
  have hbs : s.end_time.isSome = false := by simp [hend]
  simp only [hbs, Bool.false_eq_true, if_false]

/-- `resume_session` on a located session returns the row with the pause marker
folded into `break_minutes` (or the row unchanged when no marker is set). -/
theorem resume_session_ok_val (st : ServiceState) (sid : Nat) (t : ℚ)
    (s : StudySession)
    (hf : st.db.sessions.find? (fun x => x.sid == sid) = some s) :
    (StudySessionService.resume_session st sid t).1
      = .ok (match s.paused_at with
          | some ps => { s with
              break_minutes := s.break_minutes + pyInt ((t - ps) / 60)
              paused_at := none }
          | none => s) := by
  unfold StudySessionService.resume_session
  rw [hf]

/-- C5: pausing an active session at `t1` and resuming at `t2 ≥ t1` (with no
activity in between) leaves `active_minutes` unchanged and adds exactly
`int((t2 - t1) / 60)` to `break_minutes` — the pause duration to within the
one-minute granularity of the timer arithmetic, as the final two bounds
state. -/
theorem pause_resume_break_minutes (st : ServiceState) (sid : Nat) (t1 t2 : ℚ)
    (s : StudySession)
    (hf : st.db.sessions.find? (fun x => x.sid == sid) = some s)
    (hend : s.end_time = none) (hle : t1 ≤ t2) :
    ∃ s2 : StudySession,
      (StudySessionService.resume_session
          (StudySessionService.pause_session st sid t1).2 sid t2).1 = .ok s2 ∧
      s2.active_minutes = s.active_minutes ∧
      s2.break_minutes = s.break_minutes + pyInt ((t2 - t1) / 60) ∧
      (pyInt ((t2 - t1) / 60) : ℚ) * 60 ≤ t2 - t1 ∧
      t2 - t1 < ((pyInt ((t2 - t1) / 60) : ℚ) + 1) * 60 := by
  have hsid : s.sid = sid := by
    have := List.find?_some hf
    simpa using this
  set st1 := (StudySessionService.pause_session st sid t1).2 with hst1
  have hfind1 : st1.db.sessions.find? (fun x => x.sid == sid)
      = some { s with paused_at := some t1 } := by
    rw [pause_session_ok_spec st sid t1 s hf hend]
    exact find?_replaceSession _ _ _ _ hf hsid
  refine ⟨{ s with
      break_minutes := s.break_minutes + pyInt ((t2 - t1) / 60)
      paused_at := none }, ?_, rfl, rfl, ?_, ?_⟩
  · exact resume_session_ok_val st1 sid t2 _ hfind1
  · have hq : (0 : ℚ) ≤ (t2 - t1) / 60 := by
      apply div_nonneg (by linarith) (by norm_num)
    rw [pyInt_eq_floor _ hq]
    have := Int.floor_le ((t2 - t1) / 60)
    linarith
  · have hq : (0 : ℚ) ≤ (t2 - t1) / 60 := by
      apply div_nonneg (by linarith) (by norm_num)
    rw [pyInt_eq_floor _ hq]
    have := Int.lt_floor_add_one ((t2 - t1) / 60)
    linarith

/-- C5 witness: pause at t=100, resume at t=250 adds `int(150/60) = 2` break
minutes and leaves active time untouched. -/
theorem pause_resume_break_minutes_witness :
    ∃ s2 : StudySession,
      (StudySessionService.resume_session
          (StudySessionService.pause_session
            { db := { sessions := [{ sid := 1, start_time := 0 }] } } 1 100).2 1 250).1
        = .ok s2 ∧
      s2.active_minutes = ({ sid := 1, start_time := 0 } : StudySession).active_minutes ∧
      s2.break_minutes = ({ sid := 1, start_time := 0 } : StudySession).break_minutes
        + pyInt (((250 : ℚ) - 100) / 60) ∧
      (pyInt (((250 : ℚ) - 100) / 60) : ℚ) * 60 ≤ (250 : ℚ) - 100 ∧
      (250 : ℚ) - 100 < ((pyInt (((250 : ℚ) - 100) / 60) : ℚ) + 1) * 60 :=
  pause_resume_break_minutes _ 1 100 250 { sid := 1, start_time := 0 } rfl rfl
    (by norm_num)

/-- Modelled from the spec: Python `round` (round-half-to-even) on a rational,
used only to state the specification's claimed XP formula. -/
def pyRound (q : ℚ) : Int :=
  let f := Int.fdiv q.num q.den
  let r := q - (f : ℚ)
  if r < 1/2 then f
  else if 1/2 < r then f + 1
  else if f % 2 = 0 then f else f + 1

/-- Modelled from the spec: the claimed finalization formula
`xp_earned = round(active_minutes × (1 + focus_score / 100))`. -/
def specSessionXp (active_minutes : Int) (focus_score : ℚ) : Int :=
  pyRound ((active_minutes : ℚ) * (1 + focus_score / 100))

/-- The C4 scenario: a session started at t=0 with no recorded activity, ended
through the service at t=600 (so 10 total minutes, 0 active minutes). -/
def endXpRun : Except SessionError StudySession × ServiceState :=
  StudySessionService.end_session
    { db := { sessions := [{ sid := 1, start_time := 0 }] } } 1 {} 600

/-- C4 counterexample: the ended session holds `xp_earned = 10` — the code
computes `int(total_minutes * (1 + focus/100)) = int(10 * 1)` — while the
claim's formula `round(active_minutes * (1 + focus/100)) = round(0 * 1)`
evaluates to 0. -/
theorem end_session_xp_claim_cex :
    endXpRun.1.toOption.map
        (fun s2 => (s2.xp_earned, specSessionXp s2.active_minutes s2.focus_score))
      = some (10, 0) ∧ (10 : Int) ≠ 0 := by
  constructor
  · decide
  · decide

/-- The model's `end_session` always writes
`xp_earned = int(final_total_minutes * (1 + final_focus_score / 100))` when it
finalizes a running session. -/
theorem end_session_model_xp (s : StudySession) (now : ℚ) (h : s.end_time = none) :
    (s.end_session now).xp_earned
      = pyInt (((s.end_session now).total_minutes : ℚ)
          * (1 + (s.end_session now).focus_score / 100)) := by
  unfold StudySession.end_session
  rw [h]

/-- C4 (amended): every session ended through the service carries
`xp_earned = int(total_minutes * (1 + focus_score / 100))`, where
`total_minutes` and `focus_score` are the finalized values — the base is total
(not active) minutes and the conversion is `int` truncation (not `round`). -/
theorem end_session_xp_formula (st : ServiceState) (sid : Nat) (e : StudySessionEnd)
    (t : ℚ) (s : StudySession)
    (hf : st.db.sessions.find? (fun x => x.sid == sid) = some s)
    (hend : s.end_time = none) :
    ∃ s2 : StudySession,
      (StudySessionService.end_session st sid e t).1 = .ok s2 ∧
      s2.xp_earned = pyInt ((s2.total_minutes : ℚ) * (1 + s2.focus_score / 100)) := by
  refine ⟨(applyEndData s e).end_session t,
    (end_session_ok_spec st sid e t s hf hend).1, ?_⟩
  exact end_session_model_xp (applyEndData s e) t
    (by rw [applyEndData_end_time]; exact hend)

/-- C4 witness: the amended formula holds on the concrete ended session of the
counterexample run. -/
theorem end_session_xp_formula_witness :
    ∃ s2 : StudySession,
      (StudySessionService.end_session
          { db := { sessions := [{ sid := 1, start_time := 0 }] } } 1 {} 600).1 = .ok s2 ∧
      s2.xp_earned = pyInt ((s2.total_minutes : ℚ) * (1 + s2.focus_score / 100)) :=
  end_session_xp_formula _ 1 {} 600 { sid := 1, start_time := 0 } rfl rfl
